import Mathlib

/-!
# module-droid-glue: lifecycle and parameter bridge

A shallow embedding of `src/glue/module-droid-glue.c`.

* Pointers that the code tests against NULL are `Option` values; the pointer
  `m->userdata`, which the code also frees, is a `Ptr` (null, live block, or
  freed block).
* Calls that leave the file (PulseAudio core, droid-util, libhybris, the glue
  library, the audio HAL device) are fields of `Env` / `audio_hw_device`; every
  such call is appended to `State.trace` in program order.
* The file-scope variable `audioflingerglue_handle` is a field of `State`.
* Reading through a NULL or freed pointer and a failing `pa_assert` end the
  run with a `Fault`.
-/

namespace DroidGlue

/-- Ways in which a run leaves defined behaviour. -/
inductive Fault
  | assertion_failed
  | null_dereference
  | use_after_free
deriving DecidableEq

/-- A C pointer to a heap block that the code may free: NULL, a block that is
still allocated (with its contents), or a block that has been passed to
`pa_xfree` while the pointer itself was left unchanged. -/
inductive Ptr (α : Type)
  | null
  | live (v : α)
  | dangling
deriving DecidableEq

/-- The `struct userdata` of the module (lines 81-87). Handles are opaque
numbers; `none` is NULL. -/
structure userdata where
  core : Nat
  module : Option Nat
  hw_module : Option Nat
  glue : Option Nat
deriving DecidableEq

/-- The fields of `pa_module` the code reads or writes. -/
structure pa_module where
  argument : Option String
  core : Nat
  userdata : Ptr userdata
deriving DecidableEq

/-- Parsed module arguments: the key/value pairs accepted by `pa_modargs_new`. -/
structure pa_modargs where
  raw : List (String × String)
deriving DecidableEq

/-- Every call that leaves the translation unit, with the arguments that
matter and the value it returned. -/
inductive Event
  | pa_log
  | pa_log_warn
  | pa_log_debug
  | pa_modargs_new (argument : Option String) (ok : Bool)
  | pa_modargs_free
  | access (path : String) (ret : Int)
  | android_dlopen (path : String) (ret : Option Nat)
  | pa_xnew0
  | pa_xfree
  | pa_droid_hw_module_get (core : Nat) (module_id : Option String) (ret : Option Nat)
  | pa_droid_hw_module_unref (hw : Nat)
  | pa_droid_hw_module_lock (hw : Nat)
  | pa_droid_hw_module_unlock (hw : Nat)
  | droid_afglue_connect (ret : Option Nat)
  | droid_afglue_disconnect (glue : Nat)
  | set_parameters (hw : Nat) (key_value_pairs : String) (ret : Int)
  | get_parameters (hw : Nat) (keys : String) (ret : Option String)
deriving DecidableEq

/-- Process state owned by this file: the static `audioflingerglue_handle`
(line 79) and the log of external calls made so far. -/
structure State where
  audioflingerglue_handle : Option Nat
  trace : List Event
deriving DecidableEq

/-- Append one external call to the log. -/
def State.emit (s : State) (e : Event) : State :=
  { s with trace := s.trace ++ [e] }

/-- Build-time configuration used by the `AF_LIB` macro (lines 71-75). -/
structure Config where
  LIB_AF_BASE_PATH : String
  LIB_AF_NAME : String
  LP64 : Bool

/-- Outcomes of the external calls made during one start-up. -/
structure Env where
  pa_modargs_new : Option String → List String → Option pa_modargs
  access : String → Int
  android_dlopen : String → Option Nat
  pa_droid_hw_module_get : Nat → Option String → Option Nat
  droid_afglue_connect : Option Nat

/-- The audio HAL device reached through `u->hw_module->device`, as a state
machine over a device state `σ`; the first argument names the hardware module
whose device is called. -/
structure audio_hw_device (σ : Type) where
  set_parameters : Nat → σ → String → Int × σ
  get_parameters : Nat → σ → String → Option String × σ

/-- Lines 65-69. -/
def valid_modargs : List String := ["module_id", "lib"]

/-- Lines 71-75. -/
def AF_LIB (cfg : Config) : String :=
  if cfg.LP64 then cfg.LIB_AF_BASE_PATH ++ "/lib64/" ++ cfg.LIB_AF_NAME
  else cfg.LIB_AF_BASE_PATH ++ "/lib/" ++ cfg.LIB_AF_NAME

/-- Line 77. -/
def DEFAULT_MODULE_ID : String := "primary"

/-- External (pulsecore/modargs.h): the value stored under `key`, or `dflt`
when the key is absent. -/
def pa_modargs_get_value (ma : pa_modargs) (key : String) (dflt : Option String) : Option String :=
  match ma.raw.lookup key with
  | some v => some v
  | none => dflt

/-- Lines 89-105. -/
def set_parameters_cb {σ : Type} (dev : audio_hw_device σ) (key_value_pairs : String)
    (ud : Ptr userdata) (s : State) (d : σ) : Except Fault (Int × State × σ) :=
  match ud with
  | .null => .error .assertion_failed
  | .dangling => .error .use_after_free
  | .live u =>
    let s1 := s.emit .pa_log_debug
    match u.hw_module with
    | none => .error .null_dereference
    | some hw =>
      let s2 := s1.emit (.pa_droid_hw_module_lock hw)
      let r := dev.set_parameters hw d key_value_pairs
      let ret := r.1
      let s3 := s2.emit (.set_parameters hw key_value_pairs ret)
      let s4 := s3.emit (.pa_droid_hw_module_unlock hw)
      let s5 := if ret ≠ 0 then s4.emit .pa_log_warn else s4
      .ok (ret, s5, r.2)

/-- Lines 107-119. The second component of the result is the value stored
in `*reply`. -/
def get_parameters_cb {σ : Type} (dev : audio_hw_device σ) (keys : String)
    (ud : Ptr userdata) (s : State) (d : σ) : Except Fault (Int × Option String × State × σ) :=
  match ud with
  | .null => .error .assertion_failed
  | .dangling => .error .use_after_free
  | .live u =>
    match u.hw_module with
    | none => .error .null_dereference
    | some hw =>
      let s1 := s.emit (.pa_droid_hw_module_lock hw)
      let r := dev.get_parameters hw d keys
      let reply := r.1
      let s2 := s1.emit (.get_parameters hw keys reply)
      let s3 := s2.emit (.pa_droid_hw_module_unlock hw)
      let s4 := s3.emit .pa_log_debug
      .ok (if reply.isSome then 0 else 1, reply, s4, r.2)

/-- Lines 121-126. -/
def audioflingerglue_initialize (env : Env) (s : State) (path : String) : Bool × State :=
  let h := env.android_dlopen path
  let s1 : State := { audioflingerglue_handle := h, trace := s.trace ++ [.android_dlopen path h] }
  match h with
  | some _ => (true, s1)
  | none => (false, s1)

/-- Lines 128-130. -/
def file_exists (env : Env) (s : State) (path : String) : Bool × State :=
  let r := env.access path
  (if r = 0 then true else false, s.emit (.access path r))

/-- Lines 195-210. -/
def pa__done (s : State) (m : pa_module) : Except Fault (State × pa_module) :=
  match m.userdata with
  | .null => .ok (s, m)
  | .dangling => .error .use_after_free
  | .live u =>
    let s1 := match u.glue with
      | some g => s.emit (.droid_afglue_disconnect g)
      | none => s
    let s2 := match u.hw_module with
      | some hw => s1.emit (.pa_droid_hw_module_unref hw)
      | none => s1
    .ok (s2.emit .pa_xfree, { m with userdata := .dangling })

/-- The `fail:` label of `pa__init` (lines 186-192). -/
def pa__init_fail (s : State) (m : pa_module) (ma : Option pa_modargs) :
    Except Fault (Int × State × pa_module) :=
  let s1 := match ma with
    | some _ => s.emit .pa_modargs_free
    | none => s
  match pa__done s1 m with
  | .error f => .error f
  | .ok (s2, m2) => .ok (-1, s2, m2)

/-- Lines 153-184 of `pa__init`: from the resolved `lib_path` onwards. -/
def pa__init_load (env : Env) (s : State) (m : pa_module) (ma : pa_modargs)
    (lib_path : Option String) : Except Fault (Int × State × pa_module) :=
  match lib_path with
  | none => pa__init_fail (s.emit .pa_log) m (some ma)
  | some path =>
    let r := audioflingerglue_initialize env s path
    if !r.1 then pa__init_fail (r.2.emit .pa_log) m (some ma)
    else
      let s1 := r.2.emit .pa_xnew0
      let u : userdata := { core := m.core, module := none, hw_module := none, glue := none }
      let module_id := pa_modargs_get_value ma "module_id" (some DEFAULT_MODULE_ID)
      let hw := env.pa_droid_hw_module_get u.core module_id
      let s2 := s1.emit (.pa_droid_hw_module_get u.core module_id hw)
      let u1 : userdata := { u with hw_module := hw }
      match hw with
      | none => pa__init_fail (s2.emit .pa_log) { m with userdata := .live u1 } (some ma)
      | some _ =>
        let g := env.droid_afglue_connect
        let s3 := s2.emit (.droid_afglue_connect g)
        let u2 : userdata := { u1 with glue := g }
        match g with
        | none => pa__init_fail (s3.emit .pa_log) { m with userdata := .live u2 } (some ma)
        | some _ => .ok (0, s3, { m with userdata := .live u2 })

/-- Lines 132-193. The result is the returned `int`, the process state and the
module as left behind. -/
def pa__init (cfg : Config) (env : Env) (s : State) (m : pa_module) :
    Except Fault (Int × State × pa_module) :=
  let ma := env.pa_modargs_new m.argument valid_modargs
  let s0 := s.emit (.pa_modargs_new m.argument ma.isSome)
  match ma with
  | none => pa__init_fail (s0.emit .pa_log) m none
  | some a =>
    match pa_modargs_get_value a "lib" none with
    | some lib_path =>
      let r := file_exists env s0 lib_path
      if !r.1 then pa__init_fail (r.2.emit .pa_log) m (some a)
      else pa__init_load env r.2 m a (some lib_path)
    | none => pa__init_load env s0 m a (some (AF_LIB cfg))

/-! ## Reading the log -/

/-- The external steps of start-up: existence check, library load, hardware
module lookup, glue connect. -/
def Event.isStep : Event → Bool
  | .access _ _ => true
  | .android_dlopen _ _ => true
  | .pa_droid_hw_module_get _ _ _ => true
  | .droid_afglue_connect _ => true
  | _ => false

/-- Whether a start-up step reported success. -/
def Event.succeeded : Event → Bool
  | .access _ ret => decide (ret = 0)
  | .android_dlopen _ ret => ret.isSome
  | .pa_droid_hw_module_get _ _ ret => ret.isSome
  | .droid_afglue_connect ret => ret.isSome
  | _ => true

/-- The steps of a plan that are attempted when execution stops at the first
step that fails. -/
def through_first_failure : List Event → List Event
  | [] => []
  | e :: es => if e.succeeded then e :: through_first_failure es else [e]

/-- The fixed order of start-up steps for parsed arguments `ma`, each with the
outcome the environment would give it. -/
def startup_plan (cfg : Config) (env : Env) (m : pa_module) (ma : pa_modargs) : List Event :=
  let lib := pa_modargs_get_value ma "lib" none
  let path := lib.getD (AF_LIB cfg)
  let module_id := pa_modargs_get_value ma "module_id" (some DEFAULT_MODULE_ID)
  (match lib with
    | some p => [Event.access p (env.access p)]
    | none => []) ++
  [Event.android_dlopen path (env.android_dlopen path),
   Event.pa_droid_hw_module_get m.core module_id (env.pa_droid_hw_module_get m.core module_id),
   Event.droid_afglue_connect env.droid_afglue_connect]

/-- The event is a hardware module lookup that returned handle `hw`. -/
def Event.acquires_hw (hw : Nat) : Event → Bool
  | .pa_droid_hw_module_get _ _ (some h) => h == hw
  | _ => false

/-- The event is a glue connect that returned handle `g`. -/
def Event.connects (g : Nat) : Event → Bool
  | .droid_afglue_connect (some c) => c == g
  | _ => false

/-- Calls on the hardware module made by the parameter bridge: lock, unlock
and the two device entry points. -/
def Event.isHwAction : Event → Bool
  | .pa_droid_hw_module_lock _ => true
  | .pa_droid_hw_module_unlock _ => true
  | .set_parameters _ _ _ => true
  | .get_parameters _ _ _ => true
  | _ => false

/-- Calls into the device object. -/
def Event.isDeviceCall : Event → Bool
  | .set_parameters _ _ _ => true
  | .get_parameters _ _ _ => true
  | _ => false

/-- Scan a log with the number of times the lock of module `hw` is currently
held: true when every device call on `hw` happens while the lock is held. -/
def device_calls_locked (hw : Nat) : Nat → List Event → Bool
  | _, [] => true
  | held, .pa_droid_hw_module_lock h :: es =>
    device_calls_locked hw (if h = hw then held + 1 else held) es
  | held, .pa_droid_hw_module_unlock h :: es =>
    device_calls_locked hw (if h = hw then held - 1 else held) es
  | held, .set_parameters h _ _ :: es =>
    (h != hw || decide (0 < held)) && device_calls_locked hw held es
  | held, .get_parameters h _ _ :: es =>
    (h != hw || decide (0 < held)) && device_calls_locked hw held es
  | held, _ :: es => device_calls_locked hw held es

/-- Teardown calls: disconnect, hardware handle release, context free. -/
def Event.isTeardown : Event → Bool
  | .droid_afglue_disconnect _ => true
  | .pa_droid_hw_module_unref _ => true
  | .pa_xfree => true
  | _ => false

/-- A module as handed to `pa__init` by the module loader: no context yet. -/
def fresh_module (argument : Option String) (core : Nat) : pa_module :=
  { argument := argument, core := core, userdata := .null }

/-- Run a sequence of start-ups in one process, each on a fresh module;
a start-up that faults leaves the state as it found it. -/
def run_startups (cfg : Config) (s : State) : List (Env × Option String × Nat) → State
  | [] => s
  | (env, argument, core) :: rest =>
    match pa__init cfg env s (fresh_module argument core) with
    | .ok (_, s1, _) => run_startups cfg s1 rest
    | .error _ => run_startups cfg s rest

/-- Whether a start-up with these outcomes reaches the library load, and if
so the value `android_dlopen` returns there. -/
def load_attempt (cfg : Config) (env : Env) (argument : Option String) : Option (Option Nat) :=
  match env.pa_modargs_new argument valid_modargs with
  | none => none
  | some ma =>
    match pa_modargs_get_value ma "lib" none with
    | some p => if env.access p = 0 then some (env.android_dlopen p) else none
    | none => some (env.android_dlopen (AF_LIB cfg))

/-- The handle left by the most recent start-up that reached the library
load, starting from `h`. -/
def last_load (cfg : Config) (h : Option Nat) : List (Env × Option String × Nat) → Option Nat
  | [] => h
  | (env, argument, _) :: rest =>
    match load_attempt cfg env argument with
    | some r => last_load cfg r rest
    | none => last_load cfg h rest

/-- The calls `pa__done` makes for a given value of `m->userdata` that is not
a freed block. -/
def done_events : Ptr userdata → List Event
  | .live u =>
    (match u.glue with
      | some g => [Event.droid_afglue_disconnect g]
      | none => []) ++
    (match u.hw_module with
      | some hw => [Event.pa_droid_hw_module_unref hw]
      | none => []) ++ [Event.pa_xfree]
  | _ => []

/-- The value of `m->userdata` after `pa__done`: unchanged, so a block that
was allocated is now a freed block. -/
def done_userdata : Ptr userdata → Ptr userdata
  | .null => .null
  | _ => .dangling

/-- The events up to and including the existence check, when start-up gets
past it. -/
def resolve_events (env : Env) (m : pa_module) (ma : pa_modargs) : List Event :=
  Event.pa_modargs_new m.argument true ::
    (match pa_modargs_get_value ma "lib" none with
      | some p => [Event.access p (env.access p)]
      | none => [])

/-! ## Concrete inputs -/

/-- A 64-bit build with the usual install locations. -/
def cfg64 : Config :=
  { LIB_AF_BASE_PATH := "/usr/libexec/droid-hybris/system", LIB_AF_NAME := "libaudioflingerglue.so",
    LP64 := true }

/-- The empty process state. -/
def state0 : State := { audioflingerglue_handle := none, trace := [] }

/-- An accepting argument parser: `lib=<path>` when `argument` is given,
no options otherwise. -/
def parse_lib (argument : Option String) (_valid : List String) : Option pa_modargs :=
  match argument with
  | some p => some { raw := [("lib", p)] }
  | none => some { raw := [] }

/-- Every step succeeds; the library loads as handle `lib`. -/
def env_ok (lib : Nat) : Env :=
  { pa_modargs_new := parse_lib, access := fun _ => 0, android_dlopen := fun _ => some lib,
    pa_droid_hw_module_get := fun _ _ => some 7, droid_afglue_connect := some 9 }

/-- The library file exists but cannot be loaded. -/
def env_load_fails : Env :=
  { pa_modargs_new := parse_lib, access := fun _ => 0, android_dlopen := fun _ => none,
    pa_droid_hw_module_get := fun _ _ => some 7, droid_afglue_connect := some 9 }

/-- The hardware module is not registered. -/
def env_no_hw : Env :=
  { pa_modargs_new := parse_lib, access := fun _ => 0, android_dlopen := fun _ => some 1,
    pa_droid_hw_module_get := fun _ _ => none, droid_afglue_connect := some 9 }

/-- A context in the connected stage. -/
def connected_userdata : userdata :=
  { core := 0, module := none, hw_module := some 7, glue := some 9 }

/-- A device that counts its calls, fails `set_parameters` on the empty
string and answers `get_parameters` only for the key "routing". -/
def counting_device : audio_hw_device Nat :=
  { set_parameters := fun _ n kv => (if kv = "" then -22 else 0, n + 1),
    get_parameters := fun _ n keys => (if keys = "routing" then some "routing=2" else none, n + 1) }

/-! ## Start-up result -/

/-- Teardown of a module whose `userdata` is NULL or still allocated returns. -/
theorem pa__done_ok (s : State) (m : pa_module) (hm : m.userdata ≠ .dangling) :
    ∃ s' m', pa__done s m = .ok (s', m') := by
  unfold pa__done
  cases h : m.userdata with
  | null => exact ⟨_, _, rfl⟩
  | dangling => exact absurd h hm
  | live u => exact ⟨_, _, rfl⟩

/-- The `fail:` path returns `-1` whenever the teardown it runs returns. -/
theorem pa__init_fail_ok (s : State) (m : pa_module) (ma : Option pa_modargs)
    (hm : m.userdata ≠ .dangling) :
    ∃ s' m', pa__init_fail s m ma = .ok (-1, s', m') := by
  unfold pa__init_fail
  obtain ⟨s', m', h⟩ := pa__done_ok (match ma with
    | some _ => s.emit .pa_modargs_free
    | none => s) m hm
  exact ⟨s', m', by simp only [h]⟩

/-- Return value of lines 153-184 for a resolved library path. -/
theorem pa__init_load_return (env : Env) (s : State) (m : pa_module) (ma : pa_modargs)
    (path : String) (hm : m.userdata ≠ .dangling) :
    ∃ r s' m', pa__init_load env s m ma (some path) = .ok (r, s', m') ∧
      (r = 0 ↔ (∃ lib, env.android_dlopen path = some lib) ∧
        (∃ hw, env.pa_droid_hw_module_get m.core
          (pa_modargs_get_value ma "module_id" (some DEFAULT_MODULE_ID)) = some hw) ∧
        (∃ g, env.droid_afglue_connect = some g)) ∧
      (r ≠ 0 → r = -1) := by
  unfold pa__init_load
  cases hl : env.android_dlopen path with
  | none =>
    obtain ⟨s', m', h⟩ := pa__init_fail_ok
      (( audioflingerglue_initialize env s path).2.emit .pa_log) m (some ma) hm
    refine ⟨-1, s', m', ?_, ?_, ?_⟩
    · simp [ audioflingerglue_initialize, hl] at h ⊢
      exact h
    · simp
    · simp
  | some lib =>
    cases hh : env.pa_droid_hw_module_get m.core
        (pa_modargs_get_value ma "module_id" (some DEFAULT_MODULE_ID)) with
    | none =>
      simp [ audioflingerglue_initialize, hl, hh, pa__init_fail, pa__done]
    | some hw =>
      cases hg : env.droid_afglue_connect with
      | none =>
        simp [ audioflingerglue_initialize, hl, hh, hg, pa__init_fail, pa__done]
      | some g =>
        simp [ audioflingerglue_initialize, hl, hh, hg]

/-- C1: started on a module whose `userdata` is not a freed block, `pa__init`
returns; the value is `0` exactly when argument parsing succeeded, the explicit
`lib` file (when given) exists, the library load succeeded, the hardware module
lookup returned a handle and `droid_afglue_connect` returned a handle; in every
other case the value is `-1`. -/
theorem pa__init_return_value (cfg : Config) (env : Env) (s : State) (m : pa_module)
    (hm : m.userdata ≠ .dangling) :
    ∃ r s' m', pa__init cfg env s m = .ok (r, s', m') ∧
      (r = 0 ↔ ∃ ma, env.pa_modargs_new m.argument valid_modargs = some ma ∧
        (∀ p, pa_modargs_get_value ma "lib" none = some p → env.access p = 0) ∧
        (∃ lib, env.android_dlopen
          ((pa_modargs_get_value ma "lib" none).getD (AF_LIB cfg)) = some lib) ∧
        (∃ hw, env.pa_droid_hw_module_get m.core
          (pa_modargs_get_value ma "module_id" (some DEFAULT_MODULE_ID)) = some hw) ∧
        (∃ g, env.droid_afglue_connect = some g)) ∧
      (r ≠ 0 → r = -1) := by
  unfold pa__init
  cases hma : env.pa_modargs_new m.argument valid_modargs with
  | none =>
    obtain ⟨s', m', h⟩ := pa__init_fail_ok
      ((s.emit (.pa_modargs_new m.argument false)).emit .pa_log) m none hm
    refine ⟨-1, s', m', ?_, ?_, ?_⟩
    · simpa using h
    · simp
    · simp
  | some a =>
    cases hlib : pa_modargs_get_value a "lib" none with
    | none =>
      obtain ⟨r, s', m', h, hr, hneg⟩ := pa__init_load_return env
        (s.emit (.pa_modargs_new m.argument true)) m a (AF_LIB cfg) hm
      refine ⟨r, s', m', ?_, ?_, hneg⟩
      · simpa [hlib] using h
      · rw [hr]
        simp [hlib]
    | some p =>
      by_cases hacc : env.access p = 0
      · obtain ⟨r, s', m', h, hr, hneg⟩ := pa__init_load_return env
          (file_exists env (s.emit (.pa_modargs_new m.argument true)) p).2 m a p hm
        refine ⟨r, s', m', ?_, ?_, hneg⟩
        · simpa [hlib, file_exists, hacc] using h
        · rw [hr]
          simp [hlib, hacc]
      · obtain ⟨s', m', h⟩ := pa__init_fail_ok
          ((file_exists env (s.emit (.pa_modargs_new m.argument true)) p).2.emit .pa_log)
          m (some a) hm
        refine ⟨-1, s', m', ?_, ?_, ?_⟩
        · simpa [hlib, file_exists, hacc] using h
        · simp [hlib, hacc]
        · simp

/-- Witness for C1: on a fresh module with every step succeeding the result
is `0`. -/
theorem pa__init_return_value_witness :
    (fresh_module none 0).userdata ≠ .dangling ∧
    ∃ s' m', pa__init cfg64 (env_ok 1) state0 (fresh_module none 0) = .ok (0, s', m') := by
  refine ⟨by decide, ?_⟩
  obtain ⟨r, s', m', h, hr, _⟩ :=
    pa__init_return_value cfg64 (env_ok 1) state0 (fresh_module none 0) (by decide)
  have h0 : r = 0 :=
    hr.mpr ⟨⟨[]⟩, rfl, by simp [pa_modargs_get_value], ⟨1, rfl⟩, ⟨7, rfl⟩, ⟨9, rfl⟩⟩
  subst h0
  exact ⟨s', m', h⟩

/-! ## Exact results of the start-up paths -/

/-- What `pa__done` does on a module whose context is absent or allocated. -/
theorem pa__done_eq (s : State) (m : pa_module) (hm : m.userdata ≠ .dangling) :
    pa__done s m = .ok
      ({ audioflingerglue_handle := s.audioflingerglue_handle,
         trace := s.trace ++ done_events m.userdata },
       { m with userdata := done_userdata m.userdata }) := by
  obtain ⟨argument, core, ud⟩ := m
  cases ud with
  | dangling => exact absurd rfl hm
  | null => simp [pa__done, done_events, done_userdata]
  | live u =>
    obtain ⟨c, mo, hwo, go⟩ := u
    cases hwo <;> cases go <;> simp [pa__done, done_events, done_userdata, State.emit]

/-- What the `fail:` path does. -/
theorem pa__init_fail_eq (s : State) (m : pa_module) (ma : Option pa_modargs)
    (hm : m.userdata ≠ .dangling) :
    pa__init_fail s m ma = .ok (-1,
      { audioflingerglue_handle := s.audioflingerglue_handle,
        trace := s.trace ++ ((match ma with
          | some _ => [Event.pa_modargs_free]
          | none => []) ++ done_events m.userdata) },
      { m with userdata := done_userdata m.userdata }) := by
  unfold pa__init_fail
  cases ma with
  | none => simp [pa__done_eq _ m hm]
  | some a => simp [pa__done_eq _ m hm, State.emit]

/-- Teardown makes none of the start-up steps. -/
theorem done_events_no_step (ud : Ptr userdata) :
    (done_events ud).filter Event.isStep = [] := by
  cases ud with
  | null => rfl
  | dangling => rfl
  | live u =>
    obtain ⟨c, mo, hwo, go⟩ := u
    cases hwo <;> cases go <;> rfl

/-- Start-up when argument parsing fails. -/
theorem pa__init_parse_fails (cfg : Config) (env : Env) (s : State) (m : pa_module)
    (hm : m.userdata ≠ .dangling)
    (hma : env.pa_modargs_new m.argument valid_modargs = none) :
    pa__init cfg env s m = .ok (-1,
      { audioflingerglue_handle := s.audioflingerglue_handle,
        trace := s.trace ++ ([Event.pa_modargs_new m.argument false, Event.pa_log] ++
          done_events m.userdata) },
      { m with userdata := done_userdata m.userdata }) := by
  simp [pa__init, hma, pa__init_fail_eq _ m _ hm, State.emit]

/-- Start-up when `lib` names a file that does not exist. -/
theorem pa__init_lib_missing (cfg : Config) (env : Env) (s : State) (m : pa_module)
    (ma : pa_modargs) (p : String) (hm : m.userdata ≠ .dangling)
    (hma : env.pa_modargs_new m.argument valid_modargs = some ma)
    (hlib : pa_modargs_get_value ma "lib" none = some p) (hacc : env.access p ≠ 0) :
    pa__init cfg env s m = .ok (-1,
      { audioflingerglue_handle := s.audioflingerglue_handle,
        trace := s.trace ++ ([Event.pa_modargs_new m.argument true,
          Event.access p (env.access p), Event.pa_log, Event.pa_modargs_free] ++
          done_events m.userdata) },
      { m with userdata := done_userdata m.userdata }) := by
  simp [pa__init, hma, hlib, file_exists, hacc, pa__init_fail_eq _ m _ hm, State.emit]

/-- Start-up reaches the library load with the resolved path. -/
theorem pa__init_reaches_load (cfg : Config) (env : Env) (s : State) (m : pa_module)
    (ma : pa_modargs)
    (hma : env.pa_modargs_new m.argument valid_modargs = some ma)
    (hlib : ∀ p, pa_modargs_get_value ma "lib" none = some p → env.access p = 0) :
    pa__init cfg env s m = pa__init_load env
      { audioflingerglue_handle := s.audioflingerglue_handle,
        trace := s.trace ++ resolve_events env m ma } m ma
      (some ((pa_modargs_get_value ma "lib" none).getD (AF_LIB cfg))) := by
  cases h : pa_modargs_get_value ma "lib" none with
  | none => simp [pa__init, hma, h, resolve_events, State.emit]
  | some p => simp [pa__init, hma, h, resolve_events, State.emit, file_exists, hlib p h]

/-- Lines 153-184 when the library load fails. -/
theorem pa__init_load_fails (env : Env) (s : State) (m : pa_module) (ma : pa_modargs)
    (path : String) (hm : m.userdata ≠ .dangling) (hl : env.android_dlopen path = none) :
    pa__init_load env s m ma (some path) = .ok (-1,
      { audioflingerglue_handle := none,
        trace := s.trace ++ ([Event.android_dlopen path none, Event.pa_log,
          Event.pa_modargs_free] ++ done_events m.userdata) },
      { m with userdata := done_userdata m.userdata }) := by
  simp [pa__init_load, audioflingerglue_initialize, hl, pa__init_fail_eq _ m _ hm, State.emit]

/-- Lines 153-184 when the hardware module lookup fails. -/
theorem pa__init_hw_fails (env : Env) (s : State) (m : pa_module) (ma : pa_modargs)
    (path : String) (lib : Nat) (hl : env.android_dlopen path = some lib)
    (hh : env.pa_droid_hw_module_get m.core
      (pa_modargs_get_value ma "module_id" (some DEFAULT_MODULE_ID)) = none) :
    pa__init_load env s m ma (some path) = .ok (-1,
      { audioflingerglue_handle := some lib,
        trace := s.trace ++ [Event.android_dlopen path (some lib), Event.pa_xnew0,
          Event.pa_droid_hw_module_get m.core
            (pa_modargs_get_value ma "module_id" (some DEFAULT_MODULE_ID)) none,
          Event.pa_log, Event.pa_modargs_free, Event.pa_xfree] },
      { m with userdata := .dangling }) := by
  simp [pa__init_load, audioflingerglue_initialize, hl, hh, pa__init_fail, pa__done, State.emit]

/-- Lines 153-184 when the glue connect fails. -/
theorem pa__init_connect_fails (env : Env) (s : State) (m : pa_module) (ma : pa_modargs)
    (path : String) (lib hw : Nat) (hl : env.android_dlopen path = some lib)
    (hh : env.pa_droid_hw_module_get m.core
      (pa_modargs_get_value ma "module_id" (some DEFAULT_MODULE_ID)) = some hw)
    (hg : env.droid_afglue_connect = none) :
    pa__init_load env s m ma (some path) = .ok (-1,
      { audioflingerglue_handle := some lib,
        trace := s.trace ++ [Event.android_dlopen path (some lib), Event.pa_xnew0,
          Event.pa_droid_hw_module_get m.core
            (pa_modargs_get_value ma "module_id" (some DEFAULT_MODULE_ID)) (some hw),
          Event.droid_afglue_connect none, Event.pa_log, Event.pa_modargs_free,
          Event.pa_droid_hw_module_unref hw, Event.pa_xfree] },
      { m with userdata := .dangling }) := by
  simp [pa__init_load, audioflingerglue_initialize, hl, hh, hg, pa__init_fail, pa__done,
    State.emit]

/-- Lines 153-184 when every step succeeds. -/
theorem pa__init_load_succeeds (env : Env) (s : State) (m : pa_module) (ma : pa_modargs)
    (path : String) (lib hw g : Nat) (hl : env.android_dlopen path = some lib)
    (hh : env.pa_droid_hw_module_get m.core
      (pa_modargs_get_value ma "module_id" (some DEFAULT_MODULE_ID)) = some hw)
    (hg : env.droid_afglue_connect = some g) :
    pa__init_load env s m ma (some path) = .ok (0,
      { audioflingerglue_handle := some lib,
        trace := s.trace ++ [Event.android_dlopen path (some lib), Event.pa_xnew0,
          Event.pa_droid_hw_module_get m.core
            (pa_modargs_get_value ma "module_id" (some DEFAULT_MODULE_ID)) (some hw),
          Event.droid_afglue_connect (some g)] },
      { m with userdata :=
          (Ptr.live { core := m.core, module := none, hw_module := some hw, glue := some g }) }) := by
  simp [pa__init_load, audioflingerglue_initialize, hl, hh, hg, State.emit]

/-! ## Order of the start-up steps -/

/-- C3: the start-up steps are attempted in the order existence check (only
when `lib` is given), library load, hardware module lookup, glue connect, and
none after the first one that fails. When `lib` is given and the file is
missing the existence check is the only step and the library handle is left as
it was; when the hardware module lookup fails the library handle is the one
just loaded and no connect is attempted. -/
theorem pa__init_step_order (cfg : Config) (env : Env) (s : State) (m : pa_module)
    (hm : m.userdata ≠ .dangling) :
    ∃ r s' m' evs, pa__init cfg env s m = .ok (r, s', m') ∧ s'.trace = s.trace ++ evs ∧
      evs.filter Event.isStep =
        (match env.pa_modargs_new m.argument valid_modargs with
          | none => []
          | some ma => through_first_failure (startup_plan cfg env m ma)) ∧
      (∀ ma p, env.pa_modargs_new m.argument valid_modargs = some ma →
        pa_modargs_get_value ma "lib" none = some p → env.access p ≠ 0 →
        evs.filter Event.isStep = [Event.access p (env.access p)] ∧
        s'.audioflingerglue_handle = s.audioflingerglue_handle) ∧
      (∀ ma lib, env.pa_modargs_new m.argument valid_modargs = some ma →
        (∀ p, pa_modargs_get_value ma "lib" none = some p → env.access p = 0) →
        env.android_dlopen ((pa_modargs_get_value ma "lib" none).getD (AF_LIB cfg)) = some lib →
        env.pa_droid_hw_module_get m.core
          (pa_modargs_get_value ma "module_id" (some DEFAULT_MODULE_ID)) = none →
        s'.audioflingerglue_handle = some lib ∧
        (∀ g, Event.droid_afglue_connect g ∉ evs) ∧
        ∃ pre, evs.filter Event.isStep = pre ++
          [Event.android_dlopen ((pa_modargs_get_value ma "lib" none).getD (AF_LIB cfg)) (some lib),
           Event.pa_droid_hw_module_get m.core
             (pa_modargs_get_value ma "module_id" (some DEFAULT_MODULE_ID)) none]) := by
  cases hma : env.pa_modargs_new m.argument valid_modargs with
  | none =>
    refine ⟨_, _, _, _, pa__init_parse_fails cfg env s m hm hma, rfl, ?_, ?_, ?_⟩
    · simp [List.filter_append, done_events_no_step, Event.isStep]
    · intro ma p h
      simp at h
    · intro ma lib h
      simp at h
  | some a =>
    by_cases hlib : ∀ p, pa_modargs_get_value a "lib" none = some p → env.access p = 0
    · have hstart := pa__init_reaches_load cfg env s m a hma hlib
      have hpre : (resolve_events env m a).filter Event.isStep =
          (match pa_modargs_get_value a "lib" none with
            | some p => [Event.access p (env.access p)]
            | none => []) := by
        unfold resolve_events
        cases pa_modargs_get_value a "lib" none <;> simp [Event.isStep]
      have hplan : ∀ rest, through_first_failure
          ((match pa_modargs_get_value a "lib" none with
            | some p => [Event.access p (env.access p)]
            | none => []) ++ rest) =
          (match pa_modargs_get_value a "lib" none with
            | some p => [Event.access p (env.access p)]
            | none => []) ++ through_first_failure rest := by
        intro rest
        cases h : pa_modargs_get_value a "lib" none with
        | none => simp
        | some p => simp [through_first_failure, Event.succeeded, hlib p h]
      cases hl : env.android_dlopen ((pa_modargs_get_value a "lib" none).getD (AF_LIB cfg)) with
      | none =>
        rw [pa__init_load_fails env _ m a _ hm hl] at hstart
        refine ⟨_, _, _, _, hstart, List.append_assoc _ _ _, ?_, ?_, ?_⟩
        · simp [List.filter_append, done_events_no_step, hpre, startup_plan, hplan, hl,
            through_first_failure, Event.succeeded, Event.isStep]
        · intro ma p h1 h2 h3
          simp at h1
          subst h1
          exact absurd (hlib p h2) h3
        · intro ma lib h1 _ h3
          simp at h1
          subst h1
          rw [hl] at h3
          simp at h3
      | some lib =>
        cases hh : env.pa_droid_hw_module_get m.core
            (pa_modargs_get_value a "module_id" (some DEFAULT_MODULE_ID)) with
        | none =>
          rw [pa__init_hw_fails env _ m a _ lib hl hh] at hstart
          refine ⟨_, _, _, _, hstart, List.append_assoc _ _ _, ?_, ?_, ?_⟩
          · simp [List.filter_append, hpre, startup_plan, hplan, hl, hh,
              through_first_failure, Event.succeeded, Event.isStep]
          · intro ma p h1 h2 h3
            simp at h1
            subst h1
            exact absurd (hlib p h2) h3
          · intro ma lib2 h1 _ h3 _
            simp at h1
            subst h1
            rw [hl] at h3
            simp at h3
            subst h3
            refine ⟨rfl, ?_, ?_⟩
            · intro g hg
              simp [resolve_events] at hg
              cases hq : pa_modargs_get_value a "lib" none <;> simp [hq] at hg
            · refine ⟨(resolve_events env m a).filter Event.isStep, ?_⟩
              simp [List.filter_append, Event.isStep]
        | some hw =>
          cases hg : env.droid_afglue_connect with
          | none =>
            rw [pa__init_connect_fails env _ m a _ lib hw hl hh hg] at hstart
            refine ⟨_, _, _, _, hstart, List.append_assoc _ _ _, ?_, ?_, ?_⟩
            · simp [List.filter_append, hpre, startup_plan, hplan, hl, hh, hg,
                through_first_failure, Event.succeeded, Event.isStep]
            · intro ma p h1 h2 h3
              simp at h1
              subst h1
              exact absurd (hlib p h2) h3
            · intro ma lib2 h1 _ _ h4
              simp at h1
              subst h1
              rw [hh] at h4
              simp at h4
          | some g =>
            rw [pa__init_load_succeeds env _ m a _ lib hw g hl hh hg] at hstart
            refine ⟨_, _, _, _, hstart, List.append_assoc _ _ _, ?_, ?_, ?_⟩
            · simp [List.filter_append, hpre, startup_plan, hplan, hl, hh, hg,
                through_first_failure, Event.succeeded, Event.isStep]
            · intro ma p h1 h2 h3
              simp at h1
              subst h1
              exact absurd (hlib p h2) h3
            · intro ma lib2 h1 _ _ h4
              simp at h1
              subst h1
              rw [hh] at h4
              simp at h4
    · push_neg at hlib
      obtain ⟨p, hp, hacc⟩ := hlib
      refine ⟨_, _, _, _, pa__init_lib_missing cfg env s m a p hm hma hp hacc, rfl, ?_, ?_, ?_⟩
      · simp [List.filter_append, done_events_no_step, startup_plan, hp,
          through_first_failure, Event.succeeded, Event.isStep, hacc]
      · intro ma q h1 h2 _
        simp at h1
        subst h1
        rw [hp] at h2
        simp at h2
        subst h2
        refine ⟨?_, rfl⟩
        simp [List.filter_append, done_events_no_step, Event.isStep]
      · intro ma lib h1 h2
        simp at h1
        subst h1
        exact absurd (h2 p hp) hacc

/-- Witness for C3: with the default library path and an unregistered
hardware module, the steps are the load and the lookup, in that order. -/
theorem pa__init_step_order_witness :
    (fresh_module none 0).userdata ≠ .dangling ∧
    ∃ r s' m' evs, pa__init cfg64 env_no_hw state0 (fresh_module none 0) = .ok (r, s', m') ∧
      s'.trace = state0.trace ++ evs ∧
      evs.filter Event.isStep =
        [Event.android_dlopen "/usr/libexec/droid-hybris/system/lib64/libaudioflingerglue.so"
           (some 1),
         Event.pa_droid_hw_module_get 0 (some "primary") none] := by
  refine ⟨by decide, ?_⟩
  obtain ⟨r, s', m', evs, h, ht, hs, _⟩ :=
    pa__init_step_order cfg64 env_no_hw state0 (fresh_module none 0) (by decide)
  exact ⟨r, s', m', evs, h, ht, hs.trans (by decide)⟩

/-! ## Rollback of a failed start-up -/

/-- C2: a start-up on a fresh module returns, and when it fails every
hardware handle it obtained has been released exactly once, every connection
it obtained has been disconnected exactly once, no disconnect follows a handle
release, a library it loaded is still the process-wide handle, the context it
allocated has been freed and the module is left without an allocated context. -/
theorem pa__init_failure_releases (cfg : Config) (env : Env) (s : State)
    (argument : Option String) (core : Nat) :
    ∃ r s' m' evs, pa__init cfg env s (fresh_module argument core) = .ok (r, s', m') ∧
      s'.trace = s.trace ++ evs ∧
      (r ≠ 0 →
        (∀ hw, evs.count (Event.pa_droid_hw_module_unref hw) =
          evs.countP (Event.acquires_hw hw)) ∧
        (∀ g, evs.count (Event.droid_afglue_disconnect g) = evs.countP (Event.connects g)) ∧
        (∀ (i j g hw : Nat), evs[i]? = some (Event.droid_afglue_disconnect g) →
          evs[j]? = some (Event.pa_droid_hw_module_unref hw) → i < j) ∧
        (∀ path lib, Event.android_dlopen path (some lib) ∈ evs →
          s'.audioflingerglue_handle = some lib) ∧
        evs.count Event.pa_xfree = evs.count Event.pa_xnew0 ∧
        (∀ u, m'.userdata ≠ Ptr.live u)) := by
  have hm : (fresh_module argument core).userdata ≠ .dangling := by simp [fresh_module]
  cases hma : env.pa_modargs_new argument valid_modargs with
  | none =>
    refine ⟨_, _, _, _, pa__init_parse_fails cfg env s _ hm hma, rfl, fun _ => ?_⟩
    refine ⟨?_, ?_, ?_, ?_, ?_, ?_⟩
    · simp [fresh_module, done_events, Event.acquires_hw]
    · simp [fresh_module, done_events, Event.connects]
    · intro i j g hw hi
      have := List.getElem?_mem hi
      simp [fresh_module, done_events] at this
    · simp [fresh_module, done_events]
    · simp [fresh_module, done_events]
    · simp [fresh_module, done_userdata]
  | some a =>
    by_cases hlib : ∀ p, pa_modargs_get_value a "lib" none = some p → env.access p = 0
    · have hstart := pa__init_reaches_load cfg env s (fresh_module argument core) a hma hlib
      cases hl : env.android_dlopen ((pa_modargs_get_value a "lib" none).getD (AF_LIB cfg)) with
      | none =>
        rw [pa__init_load_fails env _ _ a _ hm hl] at hstart
        refine ⟨_, _, _, _, hstart, List.append_assoc _ _ _, fun _ => ?_⟩
        refine ⟨?_, ?_, ?_, ?_, ?_, ?_⟩
        · intro hw
          cases hq : pa_modargs_get_value a "lib" none <;>
            simp [fresh_module, done_events, resolve_events, hq, Event.acquires_hw,
              List.count_cons, List.countP_cons]
        · intro g
          cases hq : pa_modargs_get_value a "lib" none <;>
            simp [fresh_module, done_events, resolve_events, hq, Event.connects,
              List.count_cons, List.countP_cons]
        · intro i j g hw hi
          have hmem := List.getElem?_mem hi
          cases hq : pa_modargs_get_value a "lib" none <;>
            simp [fresh_module, done_events, resolve_events, hq] at hmem
        · intro path lib2 hmem
          cases hq : pa_modargs_get_value a "lib" none <;>
            simp [fresh_module, done_events, resolve_events, hq] at hmem ⊢
        · cases hq : pa_modargs_get_value a "lib" none <;>
            simp [fresh_module, done_events, resolve_events, hq, List.count_cons]
        · simp [fresh_module, done_userdata]
      | some lib =>
        cases hh : env.pa_droid_hw_module_get core
            (pa_modargs_get_value a "module_id" (some DEFAULT_MODULE_ID)) with
        | none =>
          rw [pa__init_hw_fails env _ _ a _ lib hl hh] at hstart
          refine ⟨_, _, _, _, hstart, List.append_assoc _ _ _, fun _ => ?_⟩
          refine ⟨?_, ?_, ?_, ?_, ?_, ?_⟩
          · intro hw
            cases hq : pa_modargs_get_value a "lib" none <;>
              simp [fresh_module, done_events, resolve_events, hq, Event.acquires_hw,
                List.count_cons, List.countP_cons]
          · intro g
            cases hq : pa_modargs_get_value a "lib" none <;>
              simp [fresh_module, done_events, resolve_events, hq, Event.connects,
                List.count_cons, List.countP_cons]
          · intro i j g hw hi
            have hmem := List.getElem?_mem hi
            cases hq : pa_modargs_get_value a "lib" none <;>
              simp [fresh_module, done_events, resolve_events, hq] at hmem
          · intro path lib2 hmem
            cases hq : pa_modargs_get_value a "lib" none <;>
              simp [fresh_module, done_events, resolve_events, hq] at hmem ⊢
            all_goals simp_all
          · cases hq : pa_modargs_get_value a "lib" none <;>
              simp [fresh_module, done_events, resolve_events, hq, List.count_cons]
          · simp [fresh_module, done_userdata]
        | some hw0 =>
          cases hg : env.droid_afglue_connect with
          | none =>
            rw [pa__init_connect_fails env _ _ a _ lib hw0 hl hh hg] at hstart
            refine ⟨_, _, _, _, hstart, List.append_assoc _ _ _, fun _ => ?_⟩
            refine ⟨?_, ?_, ?_, ?_, ?_, ?_⟩
            · intro hw
              cases hq : pa_modargs_get_value a "lib" none <;>
                simp [fresh_module, done_events, resolve_events, hq, Event.acquires_hw,
                  List.count_cons, List.countP_cons]
            · intro g
              cases hq : pa_modargs_get_value a "lib" none <;>
                simp [fresh_module, done_events, resolve_events, hq, Event.connects,
                  List.count_cons, List.countP_cons]
            · intro i j g hw hi
              have hmem := List.getElem?_mem hi
              cases hq : pa_modargs_get_value a "lib" none <;>
                simp [fresh_module, done_events, resolve_events, hq] at hmem
            · intro path lib2 hmem
              cases hq : pa_modargs_get_value a "lib" none <;>
                simp [fresh_module, done_events, resolve_events, hq] at hmem ⊢
              all_goals simp_all
            · cases hq : pa_modargs_get_value a "lib" none <;>
                simp [fresh_module, done_events, resolve_events, hq, List.count_cons]
            · simp [fresh_module, done_userdata]
          | some g0 =>
            rw [pa__init_load_succeeds env _ _ a _ lib hw0 g0 hl hh hg] at hstart
            exact ⟨_, _, _, _, hstart, List.append_assoc _ _ _, fun h => absurd rfl h⟩
    · push_neg at hlib
      obtain ⟨p, hp, hacc⟩ := hlib
      refine ⟨_, _, _, _, pa__init_lib_missing cfg env s _ a p hm hma hp hacc, rfl, fun _ => ?_⟩
      refine ⟨?_, ?_, ?_, ?_, ?_, ?_⟩
      · simp [fresh_module, done_events, Event.acquires_hw, List.count_cons, List.countP_cons]
      · simp [fresh_module, done_events, Event.connects, List.count_cons, List.countP_cons]
      · intro i j g hw hi
        have hmem := List.getElem?_mem hi
        simp [fresh_module, done_events] at hmem
      · simp [fresh_module, done_events]
      · simp [fresh_module, done_events, List.count_cons]
      · simp [fresh_module, done_userdata]

/-- Witness for C2: with the hardware module unregistered the start-up fails
after loading library `1`; the context it allocated is freed, nothing else is
released and the library stays loaded. -/
theorem pa__init_failure_releases_witness :
    ∃ s' m', pa__init cfg64 env_no_hw state0 (fresh_module none 0) = .ok (-1, s', m') ∧
      s'.audioflingerglue_handle = some 1 ∧ m'.userdata = .dangling ∧
      s'.trace.filter Event.isTeardown = [Event.pa_xfree] ∧
      ∀ hw, s'.trace.count (Event.pa_droid_hw_module_unref hw) =
        s'.trace.countP (Event.acquires_hw hw) := by
  obtain ⟨r, s', m', evs, h, ht, hr⟩ :=
    pa__init_failure_releases cfg64 env_no_hw state0 none 0
  have h2 : pa__init cfg64 env_no_hw state0 (fresh_module none 0) = .ok (-1,
      ⟨some 1, [Event.pa_modargs_new none true,
        Event.android_dlopen "/usr/libexec/droid-hybris/system/lib64/libaudioflingerglue.so"
          (some 1),
        Event.pa_xnew0, Event.pa_droid_hw_module_get 0 (some "primary") none, Event.pa_log,
        Event.pa_modargs_free, Event.pa_xfree]⟩,
      { argument := none, core := 0, userdata := .dangling }) := by
    rfl
  rw [h2] at h
  cases h
  refine ⟨_, _, h2, rfl, rfl, by decide, ?_⟩
  intro hw
  have := (hr (by decide)).1 hw
  simp only [state0, List.nil_append] at ht
  rw [ht]
  exact this

/-! ## Parameter bridge -/

/-- C4: with a context that holds hardware module `hw`, `get_parameters_cb`
returns, stores in `*reply` the value the device's `get_parameters` returns
for the same keys (the device being called once), and its result is `0`
exactly when that reply is non-null, an empty string included, and `1` exactly
when it is null. -/
theorem get_parameters_cb_reply {σ : Type} (dev : audio_hw_device σ) (keys : String)
    (u : userdata) (hw : Nat) (s : State) (d : σ) (hu : u.hw_module = some hw) :
    ∃ ret reply s', get_parameters_cb dev keys (.live u) s d =
        .ok (ret, reply, s', (dev.get_parameters hw d keys).2) ∧
      reply = (dev.get_parameters hw d keys).1 ∧
      (ret = 0 ↔ reply ≠ none) ∧ (ret = 1 ↔ reply = none) ∧ (reply = some "" → ret = 0) ∧
      ∃ evs, s'.trace = s.trace ++ evs ∧
        evs.filter Event.isDeviceCall = [Event.get_parameters hw keys reply] := by
  refine ⟨_, _, _, by simp only [get_parameters_cb, hu]; rfl, rfl, ?_, ?_, ?_, ?_⟩
  · cases (dev.get_parameters hw d keys).1 <;> simp
  · cases (dev.get_parameters hw d keys).1 <;> simp
  · intro h
    simp [h]
  · exact ⟨_, by simp only [State.emit, List.append_assoc]; rfl, by simp [Event.isDeviceCall]⟩

/-- Witness for C4: the counting device answers the key "routing". -/
theorem get_parameters_cb_reply_witness :
    connected_userdata.hw_module = some 7 ∧
    ∃ s', get_parameters_cb counting_device "routing" (.live connected_userdata) state0 0 =
      .ok (0, some "routing=2", s', 1) := by
  refine ⟨rfl, ?_⟩
  obtain ⟨ret, reply, s', h, hr, h0, _⟩ :=
    get_parameters_cb_reply counting_device "routing" connected_userdata 7 state0 0 rfl
  have hreply : reply = some "routing=2" := hr.trans (by decide)
  subst hreply
  have hret : ret = 0 := h0.mpr (by simp)
  subst hret
  exact ⟨s', h⟩

/-- C5: with a context that holds hardware module `hw`, `set_parameters_cb`
returns exactly the status the device's `set_parameters` returns for the same
string, the device is called once with that string, and nothing is torn down:
no disconnect, handle release or free is made and the library handle is
untouched. -/
theorem set_parameters_cb_status {σ : Type} (dev : audio_hw_device σ)
    (key_value_pairs : String) (u : userdata) (hw : Nat) (s : State) (d : σ)
    (hu : u.hw_module = some hw) :
    ∃ s', set_parameters_cb dev key_value_pairs (.live u) s d =
        .ok ((dev.set_parameters hw d key_value_pairs).1, s',
          (dev.set_parameters hw d key_value_pairs).2) ∧
      s'.audioflingerglue_handle = s.audioflingerglue_handle ∧
      ∃ evs, s'.trace = s.trace ++ evs ∧
        evs.filter Event.isDeviceCall =
          [Event.set_parameters hw key_value_pairs (dev.set_parameters hw d key_value_pairs).1] ∧
        evs.filter Event.isTeardown = [] := by
  by_cases hret : (dev.set_parameters hw d key_value_pairs).1 = 0
  · refine ⟨_, by simp only [set_parameters_cb, hu]; rfl, ?_, ?_⟩
    · simp [hret, State.emit]
    · refine ⟨[Event.pa_log_debug, Event.pa_droid_hw_module_lock hw,
        Event.set_parameters hw key_value_pairs (dev.set_parameters hw d key_value_pairs).1,
        Event.pa_droid_hw_module_unlock hw], ?_, ?_, ?_⟩
      · simp [hret, State.emit]
      · simp [Event.isDeviceCall]
      · simp [Event.isTeardown]
  · refine ⟨_, by simp only [set_parameters_cb, hu]; rfl, ?_, ?_⟩
    · simp [hret, State.emit]
    · refine ⟨[Event.pa_log_debug, Event.pa_droid_hw_module_lock hw,
        Event.set_parameters hw key_value_pairs (dev.set_parameters hw d key_value_pairs).1,
        Event.pa_droid_hw_module_unlock hw, Event.pa_log_warn], ?_, ?_, ?_⟩
      · simp [hret, State.emit]
      · simp [Event.isDeviceCall]
      · simp [Event.isTeardown]

/-- Witness for C5: the counting device rejects the empty string with `-22`
and accepts "key=value" with `0`. -/
theorem set_parameters_cb_status_witness :
    connected_userdata.hw_module = some 7 ∧
    (∃ s', set_parameters_cb counting_device "" (.live connected_userdata) state0 0 =
      .ok (-22, s', 1)) ∧
    ∃ s', set_parameters_cb counting_device "key=value" (.live connected_userdata) state0 0 =
      .ok (0, s', 1) := by
  refine ⟨rfl, ?_, ?_⟩
  · obtain ⟨s', h, _⟩ :=
      set_parameters_cb_status counting_device "" connected_userdata 7 state0 0 rfl
    exact ⟨s', h⟩
  · obtain ⟨s', h, _⟩ :=
      set_parameters_cb_status counting_device "key=value" connected_userdata 7 state0 0 rfl
    exact ⟨s', h⟩

/-- C6: with a context that holds hardware module `hw`, each of
`set_parameters_cb` and `get_parameters_cb` returns, and whatever the device
answers its calls on the hardware module are exactly one lock of `hw`, then
one device call, then one unlock of `hw`; the device call happens with the
lock held, and on return every lock taken has been released. -/
theorem parameter_cb_lock_discipline {σ : Type} (dev : audio_hw_device σ) (arg : String)
    (u : userdata) (hw : Nat) (s : State) (d : σ) (hu : u.hw_module = some hw) :
    (∃ ret s' d' evs, set_parameters_cb dev arg (.live u) s d = .ok (ret, s', d') ∧
      s'.trace = s.trace ++ evs ∧
      evs.filter Event.isHwAction =
        [Event.pa_droid_hw_module_lock hw, Event.set_parameters hw arg ret,
         Event.pa_droid_hw_module_unlock hw] ∧
      device_calls_locked hw 0 evs = true ∧
      evs.count (Event.pa_droid_hw_module_lock hw) = 1 ∧
      evs.count (Event.pa_droid_hw_module_unlock hw) = 1 ∧
      ∀ h, evs.count (Event.pa_droid_hw_module_lock h) =
        evs.count (Event.pa_droid_hw_module_unlock h)) ∧
    (∃ ret reply s' d' evs, get_parameters_cb dev arg (.live u) s d =
        .ok (ret, reply, s', d') ∧
      s'.trace = s.trace ++ evs ∧
      evs.filter Event.isHwAction =
        [Event.pa_droid_hw_module_lock hw, Event.get_parameters hw arg reply,
         Event.pa_droid_hw_module_unlock hw] ∧
      device_calls_locked hw 0 evs = true ∧
      evs.count (Event.pa_droid_hw_module_lock hw) = 1 ∧
      evs.count (Event.pa_droid_hw_module_unlock hw) = 1 ∧
      ∀ h, evs.count (Event.pa_droid_hw_module_lock h) =
        evs.count (Event.pa_droid_hw_module_unlock h)) := by
  constructor
  · by_cases hret : (dev.set_parameters hw d arg).1 = 0
    · refine ⟨_, _, _, [Event.pa_log_debug, Event.pa_droid_hw_module_lock hw,
        Event.set_parameters hw arg (dev.set_parameters hw d arg).1,
        Event.pa_droid_hw_module_unlock hw],
        by simp only [set_parameters_cb, hu]; rfl, ?_, ?_, ?_, ?_, ?_, ?_⟩
      · simp [hret, State.emit]
      · simp [Event.isHwAction]
      · simp [device_calls_locked]
      · simp [List.count_cons]
      · simp [List.count_cons]
      · intro h
        simp [List.count_cons]
    · refine ⟨_, _, _, [Event.pa_log_debug, Event.pa_droid_hw_module_lock hw,
        Event.set_parameters hw arg (dev.set_parameters hw d arg).1,
        Event.pa_droid_hw_module_unlock hw, Event.pa_log_warn],
        by simp only [set_parameters_cb, hu]; rfl, ?_, ?_, ?_, ?_, ?_, ?_⟩
      · simp [hret, State.emit]
      · simp [Event.isHwAction]
      · simp [device_calls_locked]
      · simp [List.count_cons]
      · simp [List.count_cons]
      · intro h
        simp [List.count_cons]
  · refine ⟨_, _, _, _, [Event.pa_droid_hw_module_lock hw,
      Event.get_parameters hw arg (dev.get_parameters hw d arg).1,
      Event.pa_droid_hw_module_unlock hw, Event.pa_log_debug],
      by simp only [get_parameters_cb, hu]; rfl, ?_, ?_, ?_, ?_, ?_, ?_⟩
    · simp [State.emit]
    · simp [Event.isHwAction]
    · simp [device_calls_locked]
    · simp [List.count_cons]
    · simp [List.count_cons]
    · intro h
      simp [List.count_cons]

/-- Witness for C6: the bridge calls of a connected context on module 7. -/
theorem parameter_cb_lock_discipline_witness :
    connected_userdata.hw_module = some 7 ∧
    (∃ ret s' d' evs,
      set_parameters_cb counting_device "" (.live connected_userdata) state0 0 =
        .ok (ret, s', d') ∧
      s'.trace = state0.trace ++ evs ∧
      evs.filter Event.isHwAction =
        [Event.pa_droid_hw_module_lock 7, Event.set_parameters 7 "" ret,
         Event.pa_droid_hw_module_unlock 7]) ∧
    ∃ ret reply s' d' evs,
      get_parameters_cb counting_device "" (.live connected_userdata) state0 0 =
        .ok (ret, reply, s', d') ∧
      s'.trace = state0.trace ++ evs ∧
      evs.filter Event.isHwAction =
        [Event.pa_droid_hw_module_lock 7, Event.get_parameters 7 "" reply,
         Event.pa_droid_hw_module_unlock 7] := by
  obtain ⟨⟨r1, s1, d1, e1, h1, t1, a1, _⟩, ⟨r2, p2, s2, d2, e2, h2, t2, a2, _⟩⟩ :=
    parameter_cb_lock_discipline counting_device "" connected_userdata 7 state0 0 rfl
  exact ⟨rfl, ⟨r1, s1, d1, e1, h1, t1, a1⟩, ⟨r2, p2, s2, d2, e2, h2, t2, a2⟩⟩

/-! ## Shutdown -/

/-- C8: on a module whose context is absent or allocated, at any stage of
initialisation, `pa__done` returns; it disconnects exactly when the context
holds a connection handle and releases the hardware handle exactly when the
context holds one, each once, any disconnect coming before the release; it
leaves the library handle alone, and with no context, or a context holding
neither handle, it makes no disconnect and no release. -/
theorem pa__done_reverses_completed_steps (s : State) (m : pa_module)
    (hm : m.userdata ≠ .dangling) :
    ∃ s' m' evs, pa__done s m = .ok (s', m') ∧ s'.trace = s.trace ++ evs ∧
      s'.audioflingerglue_handle = s.audioflingerglue_handle ∧
      (∀ g, Event.droid_afglue_disconnect g ∈ evs ↔
        ∃ u, m.userdata = .live u ∧ u.glue = some g) ∧
      (∀ hw, Event.pa_droid_hw_module_unref hw ∈ evs ↔
        ∃ u, m.userdata = .live u ∧ u.hw_module = some hw) ∧
      (∀ g, evs.count (Event.droid_afglue_disconnect g) ≤ 1) ∧
      (∀ hw, evs.count (Event.pa_droid_hw_module_unref hw) ≤ 1) ∧
      (∀ (i j g hw : Nat), evs[i]? = some (Event.droid_afglue_disconnect g) →
        evs[j]? = some (Event.pa_droid_hw_module_unref hw) → i < j) ∧
      (m.userdata = .null → evs = []) ∧
      (∀ u, m.userdata = .live u → u.glue = none → u.hw_module = none →
        evs = [Event.pa_xfree]) := by
  refine ⟨_, _, _, pa__done_eq s m hm, rfl, rfl, ?_⟩
  obtain ⟨argument, core, ud⟩ := m
  cases ud with
  | dangling => exact absurd rfl hm
  | null => simp [done_events]
  | live u =>
    obtain ⟨c, mo, hwo, go⟩ := u
    cases hwo with
    | none =>
      cases go with
      | none =>
        simp only [done_events]
        refine ⟨?_, ?_, ?_, ?_, ?_, ?_, ?_⟩
        · simp
        · simp
        · simp [List.count_cons]
        · simp [List.count_cons]
        · intro i j g hw hi _
          have := List.getElem?_mem hi
          simp at this
        · simp
        · simp
      | some g0 =>
        simp only [done_events]
        refine ⟨?_, ?_, ?_, ?_, ?_, ?_, ?_⟩
        · intro g
          simp [eq_comm]
        · simp
        · intro g
          simp [List.count_cons]
          split <;> simp
        · simp [List.count_cons]
        · intro i j g hw _ hj
          have := List.getElem?_mem hj
          simp at this
        · simp
        · simp
    | some hw0 =>
      cases go with
      | none =>
        simp only [done_events]
        refine ⟨?_, ?_, ?_, ?_, ?_, ?_, ?_⟩
        · simp
        · intro hw
          simp [eq_comm]
        · simp [List.count_cons]
        · intro hw
          simp [List.count_cons]
          split <;> simp
        · intro i j g hw hi _
          have := List.getElem?_mem hi
          simp at this
        · simp
        · simp
      | some g0 =>
        simp only [done_events]
        refine ⟨?_, ?_, ?_, ?_, ?_, ?_, ?_⟩
        · intro g
          simp [eq_comm]
        · intro hw
          simp [eq_comm]
        · intro g
          simp [List.count_cons]
          split <;> simp
        · intro hw
          simp [List.count_cons]
          split <;> simp
        · intro i j g hw hi hj
          rcases i with _ | i
          · rcases j with _ | j
            · simp at hj
            · omega
          · rcases i with _ | i
            · simp at hi
            · rcases i with _ | i <;> simp at hi
        · simp
        · simp

/-- Witness for C8: teardown of a connected context disconnects, then
releases the hardware handle, then frees the context. -/
theorem pa__done_reverses_completed_steps_witness :
    ({ argument := none, core := 0, userdata := .live connected_userdata } : pa_module).userdata
      ≠ .dangling ∧
    ∃ s' m', pa__done state0
        { argument := none, core := 0, userdata := .live connected_userdata } = .ok (s', m') ∧
      s'.trace = [Event.droid_afglue_disconnect 9, Event.pa_droid_hw_module_unref 7,
        Event.pa_xfree] := by
  refine ⟨by decide, ?_⟩
  obtain ⟨s', m', evs, h, ht, _⟩ := pa__done_reverses_completed_steps state0
    { argument := none, core := 0, userdata := .live connected_userdata } (by decide)
  refine ⟨s', m', h, ?_⟩
  have h2 : pa__done state0
      { argument := none, core := 0, userdata := .live connected_userdata } =
      .ok (⟨none, [Event.droid_afglue_disconnect 9, Event.pa_droid_hw_module_unref 7,
        Event.pa_xfree]⟩, { argument := none, core := 0, userdata := .dangling }) := by
    rfl
  rw [h2] at h
  cases h
  rfl

/-! ## The process-wide library handle -/

/-- The library handle after one start-up on a fresh module: the result of
its load attempt when it reaches the load, the previous handle otherwise. The
module is left without a context when the load was not reached or failed, and
with a freed context when a later step failed. -/
theorem pa__init_fresh_handle (cfg : Config) (env : Env) (s : State)
    (argument : Option String) (core : Nat) :
    ∃ r s' m', pa__init cfg env s (fresh_module argument core) = .ok (r, s', m') ∧
      s'.audioflingerglue_handle =
        (match load_attempt cfg env argument with
          | some h => h
          | none => s.audioflingerglue_handle) ∧
      (r ≠ 0 → (∀ lib, load_attempt cfg env argument ≠ some (some lib)) →
        m'.userdata = .null) ∧
      (r ≠ 0 → (∃ lib, load_attempt cfg env argument = some (some lib)) →
        m'.userdata = .dangling) := by
  have hm : (fresh_module argument core).userdata ≠ .dangling := by simp [fresh_module]
  cases hma : env.pa_modargs_new argument valid_modargs with
  | none =>
    refine ⟨_, _, _, pa__init_parse_fails cfg env s _ hm hma, ?_, ?_, ?_⟩
    · simp [load_attempt, hma]
    · intro _ _
      simp [fresh_module, done_userdata]
    · intro _ h
      simp [load_attempt, hma] at h
  | some a =>
    by_cases hlib : ∀ p, pa_modargs_get_value a "lib" none = some p → env.access p = 0
    · have hstart := pa__init_reaches_load cfg env s (fresh_module argument core) a hma hlib
      have hla : load_attempt cfg env argument =
          some (env.android_dlopen ((pa_modargs_get_value a "lib" none).getD (AF_LIB cfg))) := by
        cases hq : pa_modargs_get_value a "lib" none with
        | none => simp [load_attempt, hma, hq]
        | some p => simp [load_attempt, hma, hq, hlib p hq]
      cases hl : env.android_dlopen ((pa_modargs_get_value a "lib" none).getD (AF_LIB cfg)) with
      | none =>
        rw [pa__init_load_fails env _ _ a _ hm hl] at hstart
        refine ⟨_, _, _, hstart, ?_, ?_, ?_⟩
        · simp [hla, hl]
        · intro _ _
          simp [fresh_module, done_userdata]
        · intro _ h
          simp [hla, hl] at h
      | some lib =>
        cases hh : env.pa_droid_hw_module_get core
            (pa_modargs_get_value a "module_id" (some DEFAULT_MODULE_ID)) with
        | none =>
          rw [pa__init_hw_fails env _ _ a _ lib hl hh] at hstart
          refine ⟨_, _, _, hstart, ?_, ?_, ?_⟩
          · simp [hla, hl]
          · intro _ h
            exact absurd (hla.trans (by rw [hl])) (h lib)
          · intro _ _
            rfl
        | some hw0 =>
          cases hg : env.droid_afglue_connect with
          | none =>
            rw [pa__init_connect_fails env _ _ a _ lib hw0 hl hh hg] at hstart
            refine ⟨_, _, _, hstart, ?_, ?_, ?_⟩
            · simp [hla, hl]
            · intro _ h
              exact absurd (hla.trans (by rw [hl])) (h lib)
            · intro _ _
              rfl
          | some g0 =>
            rw [pa__init_load_succeeds env _ _ a _ lib hw0 g0 hl hh hg] at hstart
            refine ⟨_, _, _, hstart, ?_, ?_, ?_⟩
            · simp [hla, hl]
            · intro h
              exact absurd rfl h
            · intro h
              exact absurd rfl h
    · push_neg at hlib
      obtain ⟨p, hp, hacc⟩ := hlib
      refine ⟨_, _, _, pa__init_lib_missing cfg env s _ a p hm hma hp hacc, ?_, ?_, ?_⟩
      · simp [load_attempt, hma, hp, hacc]
      · intro _ _
        simp [fresh_module, done_userdata]
      · intro _ h
        simp [load_attempt, hma, hp, hacc] at h

/-- Counterexample to C10 as stated: after a start-up has loaded library `1`,
a later start-up whose load fails resets the handle to absent, and a later
start-up that loads another library replaces it. -/
theorem first_successful_load_does_not_win :
    (run_startups cfg64 state0 [(env_ok 1, none, 0)]).audioflingerglue_handle = some 1 ∧
    (run_startups cfg64 state0
      [(env_ok 1, none, 0), (env_load_fails, none, 0)]).audioflingerglue_handle = none ∧
    (run_startups cfg64 state0
      [(env_ok 1, none, 0),
       (env_ok 2, some "/vendor/lib64/libaudioflingerglue.so", 0)]).audioflingerglue_handle =
      some 2 := by
  decide

/-- C10 (amended): after any sequence of start-ups the process-wide handle is
the result of the most recent load attempt, a library on success and absent on
failure; a start-up that does not reach the load leaves it unchanged, and
neither teardown nor a parameter call changes it. -/
theorem handle_is_most_recent_load (σ : Type) (cfg : Config) (s : State)
    (startups : List (Env × Option String × Nat)) :
    (run_startups cfg s startups).audioflingerglue_handle =
      last_load cfg s.audioflingerglue_handle startups ∧
    (∀ (t : State) (m : pa_module) (t' : State) (m' : pa_module),
      pa__done t m = .ok (t', m') →
        t'.audioflingerglue_handle = t.audioflingerglue_handle) ∧
    ∀ (dev : audio_hw_device σ) (arg : String) (ud : Ptr userdata) (t : State) (d : σ),
      (∀ ret t' d', set_parameters_cb dev arg ud t d = .ok (ret, t', d') →
        t'.audioflingerglue_handle = t.audioflingerglue_handle) ∧
      ∀ ret reply t' d', get_parameters_cb dev arg ud t d = .ok (ret, reply, t', d') →
        t'.audioflingerglue_handle = t.audioflingerglue_handle := by
  refine ⟨?_, ?_, ?_⟩
  · induction startups generalizing s with
    | nil => rfl
    | cons x rest ih =>
      obtain ⟨env, argument, core⟩ := x
      obtain ⟨r, s', m', h, hh, _⟩ := pa__init_fresh_handle cfg env s argument core
      simp only [run_startups, h, last_load]
      rw [ih s', hh]
      cases load_attempt cfg env argument <;> rfl
  · intro t m t' m' h
    by_cases hm : m.userdata = .dangling
    · simp [pa__done, hm] at h
    · rw [pa__done_eq t m hm] at h
      cases h
      rfl
  · intro dev arg ud t d
    cases ud with
    | null => simp [set_parameters_cb, get_parameters_cb]
    | dangling => simp [set_parameters_cb, get_parameters_cb]
    | live u =>
      cases hu : u.hw_module with
      | none => simp [set_parameters_cb, get_parameters_cb, hu]
      | some hw =>
        constructor
        · intro ret t' d' h
          simp only [set_parameters_cb, hu, Except.ok.injEq, Prod.mk.injEq] at h
          obtain ⟨_, h2, _⟩ := h
          subst h2
          split <;> rfl
        · intro ret reply t' d' h
          simp only [get_parameters_cb, hu, Except.ok.injEq, Prod.mk.injEq] at h
          obtain ⟨_, _, h2, _⟩ := h
          subst h2
          rfl

/-! ## Repeated teardown -/

end DroidGlue
